import Mathlib

/-!
Shallow embedding of `src/sigmaExp.py` (sigma-exporter), a batch utility that
translates Sigma detection rules and dispatches them to a CrowdStrike sink
(remote rule creation) or a Rapid7 sink (file export), with a SQLite ledger
(table `uploaded_rules`) used to skip unchanged rules.

The embedding models:
  * the SQLite table as a list of rows, with `REPLACE INTO` semantics keyed on
    the table's declared primary key (`id` alone, as in `init_db`);
  * a parsed rule as its identity, title, serialized content (the result of
    `yaml.dump(parsed_rule)`, treated as an opaque field) and the ordered list
    of backend query strings;
  * the remote CrowdStrike API as an oracle: a function giving the group id
    returned by the k-th `create_rule_group` call and a function giving the
    success flag (`response['meta']['rc'] == 'SUCCESS'`) of the k-th
    `create_rule` call;
  * the filesystem of the export sink as an oracle telling whether writing a
    given file name succeeds.
-/

namespace SigmaExp

/-- A row of the `uploaded_rules` table created by `init_db`:
columns `(id, title, rule_content, backend)`, primary key `id`. -/
structure Row where
  id : String
  title : String
  rule_content : String
  backend : String
deriving DecidableEq, Repr

/-- The ledger database: the rows of `uploaded_rules`. -/
abbrev DB := List Row

/-- `rule_exists_in_db`: `SELECT 1 FROM uploaded_rules WHERE id = ? AND backend = ?`,
then `fetchone() is not None`. -/
def rule_exists_in_db (db : DB) (rule_id backend : String) : Bool :=
  db.any fun r => r.id == rule_id && r.backend == backend

/-- `get_rule_content_from_db`: `SELECT rule_content ... WHERE id = ? AND backend = ?`,
returning `row[0]` if a row was fetched, else `None`. -/
def get_rule_content_from_db (db : DB) (rule_id backend : String) : Option String :=
  (db.find? fun r => r.id == rule_id && r.backend == backend).map Row.rule_content

/-- `save_rule_to_db`: `REPLACE INTO uploaded_rules (id, title, rule_content, backend)
VALUES (?, ?, ?, ?)`.  SQLite `REPLACE` deletes any row conflicting on a
uniqueness constraint — here only the primary key `id` — and inserts the new row. -/
def save_rule_to_db (db : DB) (rule_id rule_title rule_content backend : String) : DB :=
  ⟨rule_id, rule_title, rule_content, backend⟩ :: db.filter fun r => r.id != rule_id

/-- Does `needle` occur as a contiguous sublist of the haystack? -/
def containsSub (needle : List Char) : List Char → Bool
  | [] => needle.isEmpty
  | c :: rest => needle.isPrefixOf (c :: rest) || containsSub needle rest

/-- Case-sensitive substring test, modelling Python's `needle in haystack`
for strings. -/
def strIn (needle haystack : String) : Bool :=
  containsSub needle.toList haystack.toList

/-- Python's `str.lower()` (restricted to the ASCII lowering `Char.toLower`,
which covers the literals `"windows"`, `"linux"`, `"macos"` that the source
compares against). -/
def pyLower (s : String) : String :=
  ⟨s.toList.map Char.toLower⟩

/-- `determine_platform`: substring checks on the lowered file path, in order
`"windows"`, `"linux"`, `"macos"`, defaulting to `"unknown"`. -/
def determine_platform (file_path : String) : String :=
  if strIn "windows" (pyLower file_path) then "windows"
  else if strIn "linux" (pyLower file_path) then "linux"
  else if strIn "macos" (pyLower file_path) then "mac"
  else "unknown"

/-- A parsed rule as used by the two dispatch loops: `parsed_rule.id`,
`parsed_rule.title`, `yaml.dump(parsed_rule)` (an opaque serialization,
modelled as the field `content`), and `parsed_rule.queries`. -/
structure ParsedRule where
  id : String
  title : String
  content : String
  queries : List String
deriving DecidableEq, Repr

/-- Python `parsed_rule.queries[0]`, modelled totally (the source would raise
`IndexError` on an empty list; the spec guarantees at least one query and the
theorems that depend on the first query hypothesize a nonempty list). -/
def firstQuery (r : ParsedRule) : String :=
  r.queries.headD ""

/-- The arguments of a `custom_ioa.create_rule_group` call. -/
structure GroupCall where
  platform_name : String
  name : String
deriving DecidableEq, Repr

/-- The arguments of a `custom_ioa.create_rule` call; `field`, `type_` and
`value` are the single entry of the `field_values` list. -/
structure RuleCall where
  name : String
  description : String
  rule_group_id : String
  pattern_severity : Nat
  pattern_disposition : Nat
  field : String
  type_ : String
  value : String
deriving DecidableEq, Repr

/-- Oracle for the remote CrowdStrike API: `create_rule_group k p n` is the id
(`response['resources'][0]['id']`) returned by the k-th group-creation call of
the run, and `create_rule_rc k c` tells whether the k-th rule-creation call
reports `response['meta']['rc'] == 'SUCCESS'`. -/
structure CSApi where
  create_rule_group : Nat → String → String → String
  create_rule_rc : Nat → RuleCall → Bool

/-- State threaded through `process_rules_crowdstrike`: the ledger rows, the
in-run `created_rule_groups` cache (`groupName -> groupId`), and the traces of
remote calls made so far. -/
structure CSState where
  db : DB
  created_rule_groups : List (String × String)
  group_calls : List GroupCall
  rule_calls : List RuleCall
deriving Repr

/-- The up-to-date check shared by both loops: `rule_exists_in_db` followed by
`get_rule_content_from_db ... == rule_content` (the nested pair of `if`s in
the source collapses to this conjunction, since a fetched row makes the
`get` an actual string). -/
def up_to_date (db : DB) (rule_id content backend : String) : Bool :=
  rule_exists_in_db db rule_id backend &&
    (get_rule_content_from_db db rule_id backend == some content)

/-- `f"Sigma Rule Group - {rule_name} ({platform})"`. -/
def rule_group_name_of (rule_name platform : String) : String :=
  "Sigma Rule Group - " ++ rule_name ++ " (" ++ platform ++ ")"

/-- The group id the current rule uses: the cached id when the derived name is
in `created_rule_groups`, else the id returned by
`create_or_get_rule_group_crowdstrike` (which always issues a
`create_rule_group` call). -/
def step_group_id (api : CSApi) (st : CSState) (platform rule_group_name : String) : String :=
  match st.created_rule_groups.lookup rule_group_name with
  | some gid => gid
  | none => api.create_rule_group st.group_calls.length platform rule_group_name

/-- The `custom_ioa.create_rule(...)` arguments built for a rule:
`pattern_severity = 2 if not test_mode else 1`,
`pattern_disposition = 100 if not test_mode else 200`,
`field_values = [{"field": "CommandLine", "type": "string", "value": cs_query}]`. -/
def mkRuleCall (rule_name rule_group_id : String) (test_mode : Bool) (cs_query : String) :
    RuleCall :=
  { name := "Sigma Rule - " ++ rule_name
  , description := "Converted Sigma rule: " ++ rule_name
  , rule_group_id := rule_group_id
  , pattern_severity := if test_mode then 1 else 2
  , pattern_disposition := if test_mode then 200 else 100
  , field := "CommandLine"
  , type_ := "string"
  , value := cs_query }

/-- One iteration of the `for parsed_rule, platform in parsed_rules` loop of
`process_rules_crowdstrike`: skip when the ledger already stores identical
content; otherwise resolve or create the rule group, issue `create_rule`, and
upsert the ledger row exactly when the response code is success. -/
def process_one_crowdstrike (api : CSApi) (test_mode : Bool) (st : CSState)
    (pr : ParsedRule × String) : CSState :=
  let parsed_rule := pr.1
  let platform := pr.2
  let rule_id := parsed_rule.id
  let rule_name := parsed_rule.title
  let rule_content := parsed_rule.content
  let cs_query := firstQuery parsed_rule
  if up_to_date st.db rule_id rule_content "crowdstrike" then
    st
  else
    let rule_group_name := rule_group_name_of rule_name platform
    let rule_group_id := step_group_id api st platform rule_group_name
    let cached := (st.created_rule_groups.lookup rule_group_name).isSome
    let groups' := if cached then st.created_rule_groups
      else (rule_group_name, rule_group_id) :: st.created_rule_groups
    let gcalls' := if cached then st.group_calls
      else st.group_calls ++ [⟨platform, rule_group_name⟩]
    let call := mkRuleCall rule_name rule_group_id test_mode cs_query
    let success := api.create_rule_rc st.rule_calls.length call
    { db := if success then
        save_rule_to_db st.db rule_id rule_name rule_content "crowdstrike"
      else st.db
    , created_rule_groups := groups'
    , group_calls := gcalls'
    , rule_calls := st.rule_calls ++ [call] }

/-- `process_rules_crowdstrike(parsed_rules, custom_ioa, cursor, test_mode)`:
the loop over all parsed rules (the trailing `sleep(1)` has no effect on the
modelled state). -/
def process_rules_crowdstrike (api : CSApi) (test_mode : Bool)
    (parsed_rules : List (ParsedRule × String)) (st : CSState) : CSState :=
  parsed_rules.foldl (process_one_crowdstrike api test_mode) st

/-- `EXPORT_DIR`. -/
def EXPORT_DIR : String := "exported_queries"

/-- `os.path.join(export_dir, f"{rule_name}.txt")`. -/
def query_filename (export_dir rule_name : String) : String :=
  export_dir ++ "/" ++ rule_name ++ ".txt"

/-- State threaded through `process_rules_rapid7`: the ledger rows and the
successfully written files (name, content), in write order. -/
structure R7State where
  db : DB
  files : List (String × String)
deriving DecidableEq, Repr

/-- Outcome of one iteration of the rapid7 loop: ledger said up-to-date
(`continue`), file written, or the write raised an `OSError`. -/
inductive R7StepResult
  | skipped
  | wrote
  | failed
deriving DecidableEq, Repr

/-- One iteration of the `for parsed_rule, platform in parsed_rules` loop of
`process_rules_rapid7`.  `write_ok` is the filesystem oracle: when it is false
on the target file name, `open`/`write` raises and neither the file record nor
the ledger row is produced. -/
def process_one_rapid7 (write_ok : String → Bool) (st : R7State)
    (pr : ParsedRule × String) : R7State × R7StepResult :=
  let parsed_rule := pr.1
  let rule_id := parsed_rule.id
  let rule_name := parsed_rule.title
  let rule_content := parsed_rule.content
  let r7_query := firstQuery parsed_rule
  if up_to_date st.db rule_id rule_content "rapid7" then
    (st, .skipped)
  else
    let fname := query_filename EXPORT_DIR rule_name
    if write_ok fname then
      ({ db := save_rule_to_db st.db rule_id rule_name rule_content "rapid7"
       , files := st.files ++ [(fname, r7_query)] }, .wrote)
    else
      (st, .failed)

/-- `process_rules_rapid7(parsed_rules, cursor, test_mode, export_dir)`: the
loop over all parsed rules.  There is no per-rule exception handler, so a
failed write propagates out of the loop (the returned flag, caught by `main`'s
run-wide `except`), abandoning the remaining rules.  The `test_mode` argument
is accepted, as in the source, and never used. -/
def process_rules_rapid7 (write_ok : String → Bool) (test_mode : Bool) :
    List (ParsedRule × String) → R7State → R7State × Bool
  | [], st => (st, false)
  | p :: rest, st =>
    match process_one_rapid7 write_ok st p with
    | (st', R7StepResult.failed) => (st', true)
    | (st', _) => process_rules_rapid7 write_ok test_mode rest st'

/-- The re-apply condition of the spec: no ledger entry for `(rule_id, backend)`
or the stored content differs from the freshly serialized content. -/
def changed (db : DB) (rule_id content backend : String) : Prop :=
  ¬ (rule_exists_in_db db rule_id backend = true ∧
     get_rule_content_from_db db rule_id backend = some content)

instance (db : DB) (rule_id content backend : String) :
    Decidable (changed db rule_id content backend) := by
  unfold changed; infer_instance

/-! Concrete fixtures used by witness and counterexample theorems. -/

/-- An API oracle whose rule-creation calls all succeed. -/
def apiOk : CSApi where
  create_rule_group := fun k _ _ => "grp-" ++ toString k
  create_rule_rc := fun _ _ => true

/-- An API oracle whose rule-creation calls all report a non-success code. -/
def apiReject : CSApi where
  create_rule_group := fun k _ _ => "grp-" ++ toString k
  create_rule_rc := fun _ _ => false

/-- A filesystem oracle on which every write succeeds. -/
def writeAll : String → Bool := fun _ => true

/-- A filesystem oracle on which only the export file of the rule titled `A`
fails to be written. -/
def writeNotA : String → Bool := fun f => f != query_filename EXPORT_DIR "A"

/-- A sample rule with a single query. -/
def ruleA : ParsedRule := ⟨"id-a", "A", "content-a", ["query-a"]⟩

/-- A sample rule with two queries. -/
def ruleB : ParsedRule := ⟨"id-b", "B", "content-b", ["query-b", "query-b2"]⟩

/-- A rule equal to `ruleB` except for the queries after the first. -/
def ruleB' : ParsedRule := ⟨"id-b", "B", "content-b", ["query-b", "other-tail"]⟩

/-- Initial CrowdStrike dispatch state over an empty ledger. -/
def csState0 : CSState := ⟨[], [], [], []⟩

/-- Initial Rapid7 dispatch state over an empty ledger. -/
def r7State0 : R7State := ⟨[], []⟩

/-- A CrowdStrike dispatch state whose ledger already stores `ruleA`'s exact
content for the crowdstrike backend. -/
def stUpToDateA : CSState := ⟨[⟨"id-a", "A", "content-a", "crowdstrike"⟩], [], [], []⟩

/-- A CrowdStrike dispatch state whose in-run group cache already holds the
group derived from `ruleA`'s title and the windows platform. -/
def stCachedA : CSState := ⟨[], [(rule_group_name_of "A" "windows", "gid0")], [], []⟩

/-- The not-up-to-date branch of `process_one_crowdstrike`, written as a
function of exactly the rule components the source reads: id, title,
serialized content and first query. -/
def cs_apply (api : CSApi) (tm : Bool) (st : CSState)
    (rid rtitle rcontent q0 p : String) : CSState :=
  let gname := rule_group_name_of rtitle p
  let gid := step_group_id api st p gname
  let call := mkRuleCall rtitle gid tm q0
  { db := if api.create_rule_rc st.rule_calls.length call then
        save_rule_to_db st.db rid rtitle rcontent "crowdstrike"
      else st.db
  , created_rule_groups := if (st.created_rule_groups.lookup gname).isSome then
        st.created_rule_groups
      else (gname, gid) :: st.created_rule_groups
  , group_calls := if (st.created_rule_groups.lookup gname).isSome then
        st.group_calls
      else st.group_calls ++ [⟨p, gname⟩]
  , rule_calls := st.rule_calls ++ [call] }

/-- The not-up-to-date branch of `process_one_rapid7`, as a function of the
rule components the source reads (the loop's `platform` variable is unused
there). -/
def r7_apply (w : String → Bool) (st7 : R7State) (rid rtitle rcontent q0 : String) :
    R7State × R7StepResult :=
  if w (query_filename EXPORT_DIR rtitle) then
    ({ db := save_rule_to_db st7.db rid rtitle rcontent "rapid7"
     , files := st7.files ++ [(query_filename EXPORT_DIR rtitle, q0)] }, .wrote)
  else (st7, .failed)

/-- Invariant of the interactive sink's group handling: the names of the
group-creation calls made so far are pairwise distinct, and a name has been
the subject of a call exactly when it is in the `created_rule_groups` cache. -/
def cs_group_inv (st : CSState) : Prop :=
  (st.group_calls.map GroupCall.name).Nodup ∧
  ∀ n, n ∈ st.group_calls.map GroupCall.name ↔ (st.created_rule_groups.lookup n).isSome

theorem up_to_date_true_iff (db : DB) (i c b : String) :
    up_to_date db i c b = true ↔
      (rule_exists_in_db db i b = true ∧ get_rule_content_from_db db i b = some c) := by
  simp [up_to_date]

theorem up_to_date_false_iff (db : DB) (i c b : String) :
    up_to_date db i c b = false ↔ changed db i c b := by
  rw [changed, ← up_to_date_true_iff, Bool.eq_false_iff]

theorem get_after_save (db : DB) (i t c b : String) :
    get_rule_content_from_db (save_rule_to_db db i t c b) i b = some c := by
  simp [get_rule_content_from_db, save_rule_to_db, List.find?]

theorem process_one_crowdstrike_up_to_date (api : CSApi) (tm : Bool) (st : CSState)
    (r : ParsedRule) (p : String) (h : ¬ changed st.db r.id r.content "crowdstrike") :
    process_one_crowdstrike api tm st (r, p) = st := by
  have hb : up_to_date st.db r.id r.content "crowdstrike" = true := by
    rw [up_to_date_true_iff]; exact not_not.mp h
  simp [process_one_crowdstrike, hb]

theorem process_one_crowdstrike_changed_eq (api : CSApi) (tm : Bool) (st : CSState)
    (r : ParsedRule) (p : String) (h : changed st.db r.id r.content "crowdstrike") :
    process_one_crowdstrike api tm st (r, p)
      = cs_apply api tm st r.id r.title r.content (firstQuery r) p := by
  have hb : up_to_date st.db r.id r.content "crowdstrike" = false :=
    (up_to_date_false_iff _ _ _ _).mpr h
  simp [process_one_crowdstrike, cs_apply, hb]

theorem process_one_rapid7_up_to_date (w : String → Bool) (st7 : R7State)
    (r : ParsedRule) (p : String) (h : ¬ changed st7.db r.id r.content "rapid7") :
    process_one_rapid7 w st7 (r, p) = (st7, R7StepResult.skipped) := by
  have hb : up_to_date st7.db r.id r.content "rapid7" = true := by
    rw [up_to_date_true_iff]; exact not_not.mp h
  simp [process_one_rapid7, hb]

theorem process_one_rapid7_changed_eq (w : String → Bool) (st7 : R7State)
    (r : ParsedRule) (p : String) (h : changed st7.db r.id r.content "rapid7") :
    process_one_rapid7 w st7 (r, p)
      = r7_apply w st7 r.id r.title r.content (firstQuery r) := by
  have hb : up_to_date st7.db r.id r.content "rapid7" = false :=
    (up_to_date_false_iff _ _ _ _).mpr h
  simp [process_one_rapid7, r7_apply, hb]

/-- C2: on the ledger as `init_db` creates it (primary key `id` alone),
`REPLACE INTO` keyed on `id` makes a put for the same rule id under a second
backend delete the first backend's entry.  Starting from an empty ledger and
putting `(r1, crowdstrike, c1)` then `(r1, rapid7, c2)`, the crowdstrike entry
is gone, refuting the claim that both entries are retained. -/
theorem replace_collides_across_backends :
    rule_exists_in_db
        (save_rule_to_db (save_rule_to_db [] "r1" "T" "c1" "crowdstrike")
          "r1" "T" "c2" "rapid7")
        "r1" "crowdstrike" = false
    ∧ get_rule_content_from_db
        (save_rule_to_db (save_rule_to_db [] "r1" "T" "c1" "crowdstrike")
          "r1" "T" "c2" "rapid7")
        "r1" "crowdstrike" = none
    ∧ get_rule_content_from_db
        (save_rule_to_db (save_rule_to_db [] "r1" "T" "c1" "crowdstrike")
          "r1" "T" "c2" "rapid7")
        "r1" "rapid7" = some "c2" := by decide

/-- C8: platform inference is a pure, order-sensitive, case-insensitive
substring match on the file path: `windows` wins over `linux`, which wins over
`macos` (mapped to `mac`), and `unknown` is the default. -/
theorem determine_platform_spec (p : String) :
    (strIn "windows" (pyLower p) = true → determine_platform p = "windows")
    ∧ (strIn "windows" (pyLower p) = false → strIn "linux" (pyLower p) = true →
        determine_platform p = "linux")
    ∧ (strIn "windows" (pyLower p) = false → strIn "linux" (pyLower p) = false →
        strIn "macos" (pyLower p) = true → determine_platform p = "mac")
    ∧ (strIn "windows" (pyLower p) = false → strIn "linux" (pyLower p) = false →
        strIn "macos" (pyLower p) = false → determine_platform p = "unknown") := by
  refine ⟨fun h1 => ?_, fun h1 h2 => ?_, fun h1 h2 h3 => ?_, fun h1 h2 h3 => ?_⟩
  · simp [determine_platform, h1]
  · simp [determine_platform, h1, h2]
  · simp [determine_platform, h1, h2, h3]
  · simp [determine_platform, h1, h2, h3]

/-- Witness for C8 at a path that contains both `windows` (in mixed case) and
`linux`: the order-sensitive match yields `windows`. -/
theorem determine_platform_spec_witness :
    strIn "windows" (pyLower "rules/Windows/linux/a.yml") = true
    ∧ determine_platform "rules/Windows/linux/a.yml" = "windows" :=
  ⟨by decide, (determine_platform_spec "rules/Windows/linux/a.yml").1 (by decide)⟩

/-- C9: the test-mode flag is accepted by the rapid7 dispatch and never used:
for any filesystem oracle, rule corpus and initial state, running with the
flag on and off produces identical final states (ledger rows and exported
files) and the same abort flag. -/
theorem rapid7_ignores_test_mode (w : String → Bool) (rules : List (ParsedRule × String))
    (st : R7State) (tm₁ tm₂ : Bool) :
    process_rules_rapid7 w tm₁ rules st = process_rules_rapid7 w tm₂ rules st := by
  induction rules generalizing st with
  | nil => rfl
  | cons p rest ih =>
    simp only [process_rules_rapid7]
    rcases h : process_one_rapid7 w st p with ⟨st', res⟩
    cases res <;> simp [ih]

/-- C1: for a rule processed against the ledger state it is reached with, the
sink is invoked (a `create_rule` call is made, resp. a file write is
attempted) if and only if no ledger entry exists for `(id, backend)` or the
stored content differs from the freshly serialized content; when the entry
exists with identical content the rule is skipped and the step leaves the
state untouched. -/
theorem sink_iff_changed (api : CSApi) (tm : Bool) (w : String → Bool)
    (st : CSState) (st7 : R7State) (r : ParsedRule) (p : String) :
    ((process_one_crowdstrike api tm st (r, p)).rule_calls.length
        = st.rule_calls.length + 1 ↔ changed st.db r.id r.content "crowdstrike")
    ∧ (¬ changed st.db r.id r.content "crowdstrike" →
        process_one_crowdstrike api tm st (r, p) = st)
    ∧ ((process_one_rapid7 w st7 (r, p)).2 ≠ R7StepResult.skipped ↔
        changed st7.db r.id r.content "rapid7")
    ∧ (¬ changed st7.db r.id r.content "rapid7" →
        process_one_rapid7 w st7 (r, p) = (st7, R7StepResult.skipped)) := by
  refine ⟨?_, fun h => process_one_crowdstrike_up_to_date api tm st r p h, ?_,
    fun h => process_one_rapid7_up_to_date w st7 r p h⟩
  · by_cases hc : changed st.db r.id r.content "crowdstrike"
    · rw [process_one_crowdstrike_changed_eq api tm st r p hc]
      simp [cs_apply, hc]
    · rw [process_one_crowdstrike_up_to_date api tm st r p hc]
      simp [hc]
  · by_cases hc : changed st7.db r.id r.content "rapid7"
    · rw [process_one_rapid7_changed_eq w st7 r p hc]
      by_cases hw : w (query_filename EXPORT_DIR r.title) <;> simp [r7_apply, hw, hc]
    · rw [process_one_rapid7_up_to_date w st7 r p hc]
      simp [hc]

/-- Witness for C1: over an empty ledger the sink is invoked once for `ruleA`;
over a ledger already holding `ruleA`'s exact content the step is a no-op. -/
theorem sink_iff_changed_witness :
    (process_one_crowdstrike apiOk true csState0 (ruleA, "windows")).rule_calls.length
      = csState0.rule_calls.length + 1
    ∧ process_one_crowdstrike apiOk true stUpToDateA (ruleA, "windows") = stUpToDateA := by
  constructor
  · exact (sink_iff_changed apiOk true writeAll csState0 r7State0 ruleA "windows").1.mpr
      (by decide)
  · exact (sink_iff_changed apiOk true writeAll stUpToDateA r7State0 ruleA "windows").2.1
      (by decide)

/-- C3 counterexample: under a filesystem oracle on which only the export file
of the rule titled `A` fails, dispatching the batch `[ruleA, ruleB]` from an
empty state stops at `ruleA` with the state unchanged — `ruleB` gets neither a
ledger row nor a file, although `ruleB`'s own write would succeed (running it
alone does record it).  This refutes the claim that the remaining rules of the
batch are still processed after a per-rule write error. -/
theorem write_error_aborts_batch :
    process_rules_rapid7 writeNotA false [(ruleA, "windows"), (ruleB, "windows")] r7State0
      = (r7State0, true)
    ∧ writeNotA (query_filename EXPORT_DIR ruleB.title) = true
    ∧ rule_exists_in_db
        (process_rules_rapid7 writeNotA false [(ruleB, "windows")] r7State0).1.db
        ruleB.id "rapid7" = true := by decide

/-- C3 amended: in export mode a local filesystem error while writing one
rule's query file is logged only by the run-level error boundary: the failing
rule gets no ledger update and no file record, and the remaining rules of the
batch are NOT processed — the loop is abandoned and the run proceeds to
finalize the ledger. -/
theorem write_error_stops_batch (w : String → Bool) (tm : Bool) (st : R7State)
    (r : ParsedRule) (p : String) (rest : List (ParsedRule × String))
    (hch : changed st.db r.id r.content "rapid7")
    (hw : w (query_filename EXPORT_DIR r.title) = false) :
    process_rules_rapid7 w tm ((r, p) :: rest) st = (st, true) := by
  simp only [process_rules_rapid7]
  rw [process_one_rapid7_changed_eq w st r p hch]
  simp [r7_apply, hw]

/-- Witness for C3's amended claim at the counterexample input. -/
theorem write_error_stops_batch_witness :
    process_rules_rapid7 writeNotA false [(ruleA, "linux"), (ruleB, "linux")] r7State0
      = (r7State0, true) :=
  write_error_stops_batch writeNotA false r7State0 ruleA "linux" [(ruleB, "linux")]
    (by decide) (by decide)

/-- C4 counterexample: the rule-creation call made with test mode on carries
`pattern_disposition = 200` while the call made with test mode off carries
`pattern_disposition = 100`, and 200 is not lower than 100 — refuting the
claim that both test-profile codes are lower than the production ones. -/
theorem test_profile_disposition_not_lower :
    ((process_one_crowdstrike apiOk true csState0 (ruleA, "windows")).rule_calls.map
        RuleCall.pattern_disposition = [200])
    ∧ ((process_one_crowdstrike apiOk false csState0 (ruleA, "windows")).rule_calls.map
        RuleCall.pattern_disposition = [100])
    ∧ ¬ ((200 : Nat) < 100) := by decide

/-- C4 amended: the create-rule call takes its parameters from a two-valued
profile switch — test mode on sends `pattern_severity = 1` and
`pattern_disposition = 200`, test mode off sends `pattern_severity = 2` and
`pattern_disposition = 100`; the test severity code is lower than the
production one, but the test disposition code is higher. -/
theorem severity_disposition_profile (api : CSApi) (tm : Bool) (st : CSState)
    (r : ParsedRule) (p : String)
    (h : changed st.db r.id r.content "crowdstrike") :
    ((process_one_crowdstrike api tm st (r, p)).rule_calls.map RuleCall.pattern_severity
        = st.rule_calls.map RuleCall.pattern_severity ++ [if tm then 1 else 2])
    ∧ ((process_one_crowdstrike api tm st (r, p)).rule_calls.map
          RuleCall.pattern_disposition
        = st.rule_calls.map RuleCall.pattern_disposition ++ [if tm then 200 else 100])
    ∧ (1 : Nat) < 2 ∧ (100 : Nat) < 200 := by
  rw [process_one_crowdstrike_changed_eq api tm st r p h]
  simp [cs_apply, mkRuleCall]

/-- Witness for C4's amended claim: with test mode on, the single call made
for `ruleA` has severity 1 and disposition 200. -/
theorem severity_disposition_profile_witness :
    ((process_one_crowdstrike apiOk true csState0 (ruleA, "windows")).rule_calls.map
        RuleCall.pattern_severity = [1])
    ∧ ((process_one_crowdstrike apiOk true csState0 (ruleA, "windows")).rule_calls.map
        RuleCall.pattern_disposition = [200]) := by
  have h := severity_disposition_profile apiOk true csState0 ruleA "windows" (by decide)
  exact ⟨by simpa using h.1, by simpa using h.2.1⟩

/-- C5: for a changed rule, exactly one create-rule call is issued; when its
response code is non-success the ledger rows are left exactly as they were,
when it is success the ledger is upserted with the new content, and in either
case the loop continues with the remaining rules. -/
theorem failed_create_leaves_ledger (api : CSApi) (tm : Bool) (st : CSState)
    (r : ParsedRule) (p : String) (rest : List (ParsedRule × String))
    (h : changed st.db r.id r.content "crowdstrike") :
    ((process_one_crowdstrike api tm st (r, p)).rule_calls
        = st.rule_calls ++ [mkRuleCall r.title
            (step_group_id api st p (rule_group_name_of r.title p)) tm (firstQuery r)])
    ∧ (api.create_rule_rc st.rule_calls.length
          (mkRuleCall r.title (step_group_id api st p (rule_group_name_of r.title p))
            tm (firstQuery r)) = false →
        (process_one_crowdstrike api tm st (r, p)).db = st.db)
    ∧ (api.create_rule_rc st.rule_calls.length
          (mkRuleCall r.title (step_group_id api st p (rule_group_name_of r.title p))
            tm (firstQuery r)) = true →
        (process_one_crowdstrike api tm st (r, p)).db
          = save_rule_to_db st.db r.id r.title r.content "crowdstrike")
    ∧ process_rules_crowdstrike api tm ((r, p) :: rest) st
        = process_rules_crowdstrike api tm rest (process_one_crowdstrike api tm st (r, p)) := by
  refine ⟨?_, fun hf => ?_, fun hs => ?_, rfl⟩ <;>
    rw [process_one_crowdstrike_changed_eq api tm st r p h]
  · simp [cs_apply]
  · simp [cs_apply, hf]
  · simp [cs_apply, hs]

/-- Witness for C5: over an empty ledger, the always-reject API oracle leaves
the ledger rows unchanged for `ruleA`, while the always-accept oracle upserts
the new row. -/
theorem failed_create_leaves_ledger_witness :
    (process_one_crowdstrike apiReject true csState0 (ruleA, "windows")).db = csState0.db
    ∧ (process_one_crowdstrike apiOk true csState0 (ruleA, "windows")).db
        = save_rule_to_db csState0.db ruleA.id ruleA.title ruleA.content "crowdstrike" := by
  constructor
  · exact (failed_create_leaves_ledger apiReject true csState0 ruleA "windows" []
      (by decide)).2.1 (by decide)
  · exact (failed_create_leaves_ledger apiOk true csState0 ruleA "windows" []
      (by decide)).2.2.1 (by decide)

/-- C6: after a successful sink invocation for a rule, reading the ledger
entry for `(id, backend)` yields exactly the freshly serialized content, for
the crowdstrike sink (successful response code) and for the rapid7 sink
(successful file write) alike. -/
theorem ledger_roundtrip_after_success (api : CSApi) (tm : Bool) (w : String → Bool)
    (st : CSState) (st7 : R7State) (r : ParsedRule) (p : String)
    (hcs : changed st.db r.id r.content "crowdstrike")
    (hrc : api.create_rule_rc st.rule_calls.length
        (mkRuleCall r.title (step_group_id api st p (rule_group_name_of r.title p))
          tm (firstQuery r)) = true)
    (h7 : changed st7.db r.id r.content "rapid7")
    (hw : w (query_filename EXPORT_DIR r.title) = true) :
    get_rule_content_from_db (process_one_crowdstrike api tm st (r, p)).db
        r.id "crowdstrike" = some r.content
    ∧ get_rule_content_from_db (process_one_rapid7 w st7 (r, p)).1.db
        r.id "rapid7" = some r.content := by
  constructor
  · rw [process_one_crowdstrike_changed_eq api tm st r p hcs]
    simp [cs_apply, hrc, get_after_save]
  · rw [process_one_rapid7_changed_eq w st7 r p h7]
    simp [r7_apply, hw, get_after_save]

/-- Witness for C6: both sinks succeed on `ruleA` over an empty ledger and the
stored content reads back byte-for-byte. -/
theorem ledger_roundtrip_after_success_witness :
    get_rule_content_from_db
        (process_one_crowdstrike apiOk true csState0 (ruleA, "windows")).db
        ruleA.id "crowdstrike" = some ruleA.content
    ∧ get_rule_content_from_db
        (process_one_rapid7 writeAll r7State0 (ruleA, "windows")).1.db
        ruleA.id "rapid7" = some ruleA.content :=
  ledger_roundtrip_after_success apiOk true writeAll csState0 r7State0 ruleA "windows"
    (by decide) (by decide) (by decide) (by decide)

theorem cs_group_inv_step (api : CSApi) (tm : Bool) (st : CSState)
    (pr : ParsedRule × String) (h : cs_group_inv st) :
    cs_group_inv (process_one_crowdstrike api tm st pr) := by
  obtain ⟨r, p⟩ := pr
  by_cases hc : changed st.db r.id r.content "crowdstrike"
  · rw [process_one_crowdstrike_changed_eq api tm st r p hc]
    cases hk : (st.created_rule_groups.lookup (rule_group_name_of r.title p)).isSome
    · have hmem : rule_group_name_of r.title p ∉ st.group_calls.map GroupCall.name := by
        rw [h.2]; simp [hk]
      constructor
      · simp only [cs_apply, hk, Bool.false_eq_true, if_false, List.map_append]
        simp [List.nodup_append, h.1, hmem]
      · intro n
        simp only [cs_apply, hk, Bool.false_eq_true, if_false, List.map_append]
        rcases eq_or_ne n (rule_group_name_of r.title p) with hn | hn
        · simp [hn, List.lookup]
        · have hb : (n == rule_group_name_of r.title p) = false := by
            simpa using hn
          simp only [List.lookup, hb]
          simpa [hn] using h.2 n
    · constructor
      · simpa [cs_apply, hk] using h.1
      · intro n
        simpa [cs_apply, hk] using h.2 n
  · rw [process_one_crowdstrike_up_to_date api tm st r p hc]
    exact h

theorem cs_group_inv_run (api : CSApi) (tm : Bool) (rules : List (ParsedRule × String))
    (st : CSState) (h : cs_group_inv st) :
    cs_group_inv (process_rules_crowdstrike api tm rules st) := by
  induction rules generalizing st with
  | nil => exact h
  | cons q rest ih => exact ih _ (cs_group_inv_step api tm st q h)

/-- C7: within one run started with an empty group cache, the names of the
group-creation calls are pairwise distinct — `create_rule_group` is issued at
most once per derived name no matter how many rules map to it — and a rule
whose derived name is already cached triggers no group-creation call, its
create-rule call reusing the cached group id. -/
theorem group_create_once (api : CSApi) (tm : Bool) (rules : List (ParsedRule × String))
    (db0 : DB) :
    (((process_rules_crowdstrike api tm rules ⟨db0, [], [], []⟩).group_calls.map
        GroupCall.name).Nodup)
    ∧ (∀ (st : CSState) (r : ParsedRule) (p gid : String),
        st.created_rule_groups.lookup (rule_group_name_of r.title p) = some gid →
        ((process_one_crowdstrike api tm st (r, p)).group_calls = st.group_calls
          ∧ (changed st.db r.id r.content "crowdstrike" →
              (process_one_crowdstrike api tm st (r, p)).rule_calls
                = st.rule_calls ++ [mkRuleCall r.title gid tm (firstQuery r)]))) := by
  constructor
  · have h0 : cs_group_inv ⟨db0, [], [], []⟩ := by
      constructor
      · simp
      · intro n; simp [List.lookup]
    exact (cs_group_inv_run api tm rules _ h0).1
  · intro st r p gid hgid
    constructor
    · by_cases hc : changed st.db r.id r.content "crowdstrike"
      · rw [process_one_crowdstrike_changed_eq api tm st r p hc]
        simp [cs_apply, hgid]
      · rw [process_one_crowdstrike_up_to_date api tm st r p hc]
    · intro hc
      rw [process_one_crowdstrike_changed_eq api tm st r p hc]
      simp [cs_apply, step_group_id, hgid]

/-- Witness for C7: with the group derived from `ruleA` already cached, the
step issues no group-creation call and the create-rule call carries the cached
group id. -/
theorem group_create_once_witness :
    (process_one_crowdstrike apiOk true stCachedA (ruleA, "windows")).group_calls
        = stCachedA.group_calls
    ∧ (process_one_crowdstrike apiOk true stCachedA (ruleA, "windows")).rule_calls
        = stCachedA.rule_calls ++ [mkRuleCall ruleA.title "gid0" true (firstQuery ruleA)] := by
  have h := (group_create_once apiOk true [] []).2 stCachedA ruleA "windows" "gid0"
    (by decide)
  exact ⟨h.1, h.2 (by decide)⟩

/-- C10: both sinks use only the first query of a rule — the create-rule
payload's `value` and the exported file's content are exactly `queries[0]` —
and two rules agreeing on id, title, serialized content and first query are
processed identically by both sinks, whatever their remaining queries. -/
theorem first_query_only (api : CSApi) (tm : Bool) (w : String → Bool)
    (st : CSState) (st7 : R7State) (r r' : ParsedRule) (p q : String)
    (qs : List String) :
    (r.queries = q :: qs → changed st.db r.id r.content "crowdstrike" →
      ∃ c, (process_one_crowdstrike api tm st (r, p)).rule_calls
          = st.rule_calls ++ [c] ∧ c.value = q)
    ∧ (r.queries = q :: qs → changed st7.db r.id r.content "rapid7" →
        w (query_filename EXPORT_DIR r.title) = true →
        (process_one_rapid7 w st7 (r, p)).1.files
          = st7.files ++ [(query_filename EXPORT_DIR r.title, q)])
    ∧ (r.id = r'.id → r.title = r'.title → r.content = r'.content →
        firstQuery r = firstQuery r' →
        process_one_crowdstrike api tm st (r, p) = process_one_crowdstrike api tm st (r', p)
        ∧ process_one_rapid7 w st7 (r, p) = process_one_rapid7 w st7 (r', p)) := by
  refine ⟨fun hq hc => ?_, fun hq hc hw => ?_, fun h1 h2 h3 h4 => ⟨?_, ?_⟩⟩
  · rw [process_one_crowdstrike_changed_eq api tm st r p hc]
    exact ⟨mkRuleCall r.title (step_group_id api st p (rule_group_name_of r.title p))
      tm (firstQuery r), by simp [cs_apply], by simp [mkRuleCall, firstQuery, hq]⟩
  · rw [process_one_rapid7_changed_eq w st7 r p hc]
    simp [r7_apply, hw, firstQuery, hq]
  · by_cases hc : changed st.db r.id r.content "crowdstrike"
    · have hc' : changed st.db r'.id r'.content "crowdstrike" := by
        rw [← h1, ← h3]; exact hc
      rw [process_one_crowdstrike_changed_eq api tm st r p hc,
        process_one_crowdstrike_changed_eq api tm st r' p hc', h1, h2, h3, h4]
    · have hc' : ¬ changed st.db r'.id r'.content "crowdstrike" := by
        rw [← h1, ← h3]; exact hc
      rw [process_one_crowdstrike_up_to_date api tm st r p hc,
        process_one_crowdstrike_up_to_date api tm st r' p hc']
  · by_cases hc : changed st7.db r.id r.content "rapid7"
    · have hc' : changed st7.db r'.id r'.content "rapid7" := by
        rw [← h1, ← h3]; exact hc
      rw [process_one_rapid7_changed_eq w st7 r p hc,
        process_one_rapid7_changed_eq w st7 r' p hc', h1, h2, h3, h4]
    · have hc' : ¬ changed st7.db r'.id r'.content "rapid7" := by
        rw [← h1, ← h3]; exact hc
      rw [process_one_rapid7_up_to_date w st7 r p hc,
        process_one_rapid7_up_to_date w st7 r' p hc']

/-- Witness for C10: `ruleB` carries two queries; the payload value is its
first query, and replacing the tail (`ruleB'`) changes nothing in either
sink's step. -/
theorem first_query_only_witness :
    (∃ c, (process_one_crowdstrike apiOk true csState0 (ruleB, "windows")).rule_calls
        = csState0.rule_calls ++ [c] ∧ c.value = "query-b")
    ∧ process_one_rapid7 writeAll r7State0 (ruleB, "windows")
        = process_one_rapid7 writeAll r7State0 (ruleB', "windows") := by
  have h := first_query_only apiOk true writeAll csState0 r7State0 ruleB ruleB' "windows"
    "query-b" ["query-b2"]
  exact ⟨h.1 rfl (by decide), (h.2.2 rfl rfl rfl rfl).2⟩

end SigmaExp

